import Mathlib

/-!
Verification development for the jportal CORS proxy.

The repository ships several variants of the same request pipeline:
* `server.js` variant 1 (exact-origin validator, `JIIT_API_BASE` without path),
* `server.js` variant 2 (string-prefix validator, `JIIT_API_BASE` including
  the `/StudentPortalAPI` path segment, raw-buffer body handling),
* `index.ts` (archived Cloudflare worker, string-prefix validator),
* `src/index.ts` (archived Cloudflare worker, exact-origin validator,
  header pass-through forwarding),
* a Hono-based Cloudflare worker staged in `src/README.md` (header
  strip-and-respoof, `redirect: "manual"` on its fetch call).

JavaScript strings are modelled as `List Char`; absent values
(`undefined` / `null` header lookups) as `Option`; request bodies as
`List Nat` byte sequences.  The WHATWG `URL` parser and UTF-8 codec used
by the Node runtime are modelled explicitly below, restricted to the URL
shapes that occur in this program (absolute http/https URLs).
-/

namespace JPortalProxy

/-- A JavaScript string, modelled as its list of characters. -/
abbrev JStr := List Char

/-- JavaScript truthiness of an optional string: `undefined`, `null` and
the empty string are falsy; every other string is truthy. -/
def jsTruthy : Option JStr → Bool
  | none => false
  | some s => !s.isEmpty

/-! ## Static configuration (`server.js`, `index.ts`, `src/index.ts`) -/

/-- `JIIT_API_BASE` of `server.js` variant 1 and of `src/index.ts`:
the bare upstream origin. -/
def JIIT_API_BASE_V1 : JStr := ("https://webportal.jiit.ac.in:6011").toList

/-- `JIIT_API_BASE` of `server.js` variant 2 and of `index.ts`:
the upstream origin together with the fixed API path segment. -/
def JIIT_API_BASE_V2 : JStr :=
  ("https://webportal.jiit.ac.in:6011/StudentPortalAPI").toList

/-- The allowed path segment every forwarded path is supposed to start
with (the API root segment named `AllowedPathPrefix` by the spec). -/
def allowedPathSeg : JStr := ("/StudentPortalAPI").toList

/-- `ALLOWED_ORIGINS` default of `server.js` (the comma-separated default
split into its six entries). -/
def ALLOWED_ORIGINS : List JStr :=
  [("https://yashmalik.tech").toList,
   ("https://codeblech.github.io").toList,
   ("http://localhost:5173").toList,
   ("http://localhost:4173").toList,
   ("http://127.0.0.1:5173").toList,
   ("http://127.0.0.1:4173").toList]

/-- `ALLOWED_ORIGINS` of the archived worker `src/index.ts`
(five entries, no `yashmalik.tech`). -/
def WORKER_ALLOWED_ORIGINS : List JStr :=
  [("https://codeblech.github.io").toList,
   ("http://localhost:5173").toList,
   ("http://localhost:4173").toList,
   ("http://127.0.0.1:5173").toList,
   ("http://127.0.0.1:4173").toList]

/-! ## Inbound requests -/

/-- The parts of an inbound HTTP request the proxy reads: method, the
`path` query parameter, the URL pathname, the individual request headers
the source code consults or forwards, and the raw body bytes. -/
structure HttpRequest where
  method : JStr
  queryPath : Option JStr
  pathname : JStr
  origin : Option JStr
  acrMethod : Option JStr
  acrHeaders : Option JStr
  contentType : Option JStr
  userAgent : Option JStr
  authorization : Option JStr
  localName : Option JStr
  referer : Option JStr
  cookie : Option JStr
  secFetchSite : Option JStr
  secFetchMode : Option JStr
  secFetchDest : Option JStr
  body : List Nat
  deriving DecidableEq, Repr

/-! ## Origin gate (`isOriginAllowed` / `getCorsHeaders`) -/

/-- `isOriginAllowed` of `server.js`: falsy origins are rejected, present
origins are admitted when some allow-list entry is a string prefix of the
origin (`origin.startsWith(allowed)`). -/
def isOriginAllowed (origin : Option JStr) : Bool :=
  match origin with
  | none => false
  | some o => if o.isEmpty then false
              else ALLOWED_ORIGINS.any (fun allowed => allowed.isPrefixOf o)

/-- `getCorsHeaders` of `server.js`: echo the origin when admitted, else
fall back to the first allow-list entry (`'*'` when even that is empty). -/
def getCorsHeaders (origin : Option JStr) : List (JStr × JStr) :=
  let corsOrigin : JStr :=
    if isOriginAllowed origin then origin.getD [] else ALLOWED_ORIGINS.headD []
  [(("Access-Control-Allow-Origin").toList,
      if corsOrigin.isEmpty then ("*").toList else corsOrigin),
   (("Access-Control-Allow-Methods").toList, ("GET, HEAD, POST, OPTIONS").toList),
   (("Access-Control-Allow-Headers").toList,
      ("Content-Type, Authorization, LocalName").toList),
   (("Access-Control-Max-Age").toList, ("86400").toList),
   (("Vary").toList, ("Origin").toList)]

/-- `isOriginAllowed` of the archived worker `src/index.ts` (same
string-prefix policy over the worker's allow list). -/
def workerIsOriginAllowed (origin : Option JStr) : Bool :=
  match origin with
  | none => false
  | some o => if o.isEmpty then false
              else WORKER_ALLOWED_ORIGINS.any (fun allowed => allowed.isPrefixOf o)

/-- `getCorsHeaders` of the archived worker `src/index.ts`
(`CORS_HEADERS` spread followed by the echoed/fallback origin and
`Vary: Origin`). -/
def workerGetCorsHeaders (origin : Option JStr) : List (JStr × JStr) :=
  let corsOrigin : JStr :=
    if workerIsOriginAllowed origin then origin.getD []
    else WORKER_ALLOWED_ORIGINS.headD []
  [(("Access-Control-Allow-Methods").toList, ("GET, HEAD, POST, OPTIONS").toList),
   (("Access-Control-Allow-Headers").toList,
      ("Content-Type, Authorization, LocalName").toList),
   (("Access-Control-Max-Age").toList, ("86400").toList),
   (("Access-Control-Allow-Origin").toList,
      if corsOrigin.isEmpty then ("*").toList else corsOrigin),
   (("Vary").toList, ("Origin").toList)]

/-! ## Path resolution (shared by all variants) -/

/-- `targetPath.startsWith('/') ? targetPath : '/' + targetPath`. -/
def withSlash (s : JStr) : JStr :=
  if (['/']).isPrefixOf s then s else '/' :: s

/-- The target-path extraction of every variant's proxy handler:
`let targetPath = req.query.path; if (!targetPath) { if
(pathname.startsWith('/proxy')) targetPath = pathname.slice(6); } if
(!targetPath) fail; if (!targetPath.startsWith('/')) targetPath = '/' +
targetPath;`.  Returns `none` exactly when the handler answers 400. -/
def resolvedTargetPath (q : Option JStr) (pathname : JStr) : Option JStr :=
  let t : Option JStr :=
    if jsTruthy q then q
    else if (("/proxy").toList).isPrefixOf pathname then some (pathname.drop 6)
    else q
  if jsTruthy t then some (withSlash (t.getD [])) else none

/-- The path-resolution contract as worded by the spec (section 4.2): a
non-empty explicit `path` query parameter takes precedence; otherwise the
remainder of the pathname after the fixed `/proxy` segment, when
non-empty; the result normalised to start with `/`; failure otherwise.
Used to compare the code's resolution order against the spec's. -/
def specResolvedPath (q : Option JStr) (pathname : JStr) : Option JStr :=
  let fromQuery : Option JStr :=
    match q with
    | some s => if s.isEmpty then none else some s
    | none => none
  let fromPathname : Option JStr :=
    if (("/proxy").toList).isPrefixOf pathname && !(pathname.drop 6).isEmpty
    then some (pathname.drop 6) else none
  match fromQuery with
  | some s => some (withSlash s)
  | none =>
    match fromPathname with
    | some s => some (withSlash s)
    | none => none

/-! ## WHATWG URL model

`server.js` calls `new URL(url)` and reads `parsedUrl.origin`; `fetch`
requests the parsed, dot-segment-normalised path.  The model below covers
absolute `scheme://host[:port]/path[?query][#fragment]` URLs, which are
the only shapes this program constructs. -/

/-- Split a list at the first occurrence of the pattern `pat`, returning
the part before and the part after the pattern. -/
def splitFirst (pat : JStr) : JStr → Option (JStr × JStr)
  | [] => if pat.isEmpty then some ([], []) else none
  | c :: rest =>
    if pat.isPrefixOf (c :: rest) then some ([], (c :: rest).drop pat.length)
    else match splitFirst pat rest with
      | some (pre, post) => some (c :: pre, post)
      | none => none

/-- WHATWG dot-segment removal over the list of path segments: `..` pops
the previous segment, `.` is dropped, and a trailing `.` or `..` leaves a
trailing empty segment. -/
def normSegments (acc : List JStr) : List JStr → List JStr
  | [] => acc
  | s :: rest =>
    if s = ('.' :: '.' :: []) then
      if rest.isEmpty then acc.dropLast ++ [[]]
      else normSegments acc.dropLast rest
    else if s = ('.' :: []) then
      if rest.isEmpty then acc ++ [[]]
      else normSegments acc rest
    else normSegments (acc ++ [s]) rest

/-- Normalise a `/`-leading path by removing dot segments. -/
def normalizePath (p : JStr) : JStr :=
  '/' :: List.intercalate (('/') :: []) (normSegments [] ((p.drop 1).splitOn '/'))

/-- A parsed absolute URL: scheme, `host[:port]`, and the normalised
path (query and fragment stripped). -/
structure ParsedUrl where
  scheme : JStr
  hostPort : JStr
  path : JStr
  deriving DecidableEq, Repr

/-- The `origin` property of a parsed URL: `scheme://host[:port]`. -/
def urlOrigin (u : ParsedUrl) : JStr :=
  u.scheme ++ ("://").toList ++ u.hostPort

/-- Model of `new URL(url)` for the absolute URLs this program builds:
fails (the constructor throws) when the scheme marker is missing or the
scheme or host is empty. -/
def parseUrl (url : JStr) : Option ParsedUrl :=
  match splitFirst (("://").toList) url with
  | none => none
  | some (scheme, afterScheme) =>
    if scheme.isEmpty then none
    else
      let hostPort := afterScheme.takeWhile (fun c => !(c == '/'))
      if hostPort.isEmpty then none
      else
        let rawPath := afterScheme.drop hostPort.length
        let rawPath := rawPath.takeWhile (fun c => !(c == '?') && !(c == '#'))
        some { scheme := scheme, hostPort := hostPort,
               path := normalizePath (if rawPath.isEmpty then ('/') :: [] else rawPath) }

/-! ## Target validators -/

/-- `isValidJiitUrl` of `server.js` variant 1 and `src/index.ts`: parse
the URL and compare its `origin` for exact equality with
`JIIT_API_BASE`. -/
def isValidJiitUrlV1 (url : JStr) : Bool :=
  match parseUrl url with
  | some u => urlOrigin u = JIIT_API_BASE_V1
  | none => false

/-- `isValidJiitUrl` of `server.js` variant 2: `new URL(url)` inside
`try` (only a parse failure is caught) followed by
`url.startsWith(JIIT_API_BASE)` on the raw string. -/
def isValidJiitUrlV2 (url : JStr) : Bool :=
  match parseUrl url with
  | some _ => JIIT_API_BASE_V2.isPrefixOf url
  | none => false

/-- `isValidJiitUrl` of the archived worker `index.ts`:
`url.startsWith(apiBase)` with no parsing at all. -/
def isValidJiitUrlTs (url apiBase : JStr) : Bool :=
  apiBase.isPrefixOf url

/-! ## Header transformer -/

/-- The headers a forwarded upstream request can carry, each `none` when
the header is absent from the outbound request. -/
structure ForwardHeaders where
  origin : Option JStr
  referer : Option JStr
  cookie : Option JStr
  secFetchSite : Option JStr
  secFetchMode : Option JStr
  secFetchDest : Option JStr
  contentType : Option JStr
  userAgent : Option JStr
  authorization : Option JStr
  localName : Option JStr
  deriving DecidableEq, Repr

/-- `proxyHeaders` of `server.js` variant 2: a fresh header object with
`Content-Type` (caller's or `application/json`), a spoofed `Origin` and
`Referer`, the caller's `User-Agent` (or a fixed default), plus
`Authorization` and `LocalName` copied when the caller sent them.  No
other caller header is copied and no `Sec-Fetch-*` header is set. -/
def proxyHeadersV2 (req : HttpRequest) : ForwardHeaders where
  origin := some (("https://webportal.jiit.ac.in:6011").toList)
  referer := some (("https://webportal.jiit.ac.in:6011/").toList)
  cookie := none
  secFetchSite := none
  secFetchMode := none
  secFetchDest := none
  contentType :=
    some (if jsTruthy req.contentType then req.contentType.getD []
          else ("application/json").toList)
  userAgent :=
    some (if jsTruthy req.userAgent then req.userAgent.getD []
          else ("Mozilla/5.0 (Windows NT 10.0; Win64; x64) AppleWebKit/537.36").toList)
  authorization := if jsTruthy req.authorization then req.authorization else none
  localName := if jsTruthy req.localName then req.localName else none

/-- `proxyHeaders` of `server.js` variant 1: like variant 2 but with only
`Content-Type` and the spoofed `Origin` (no `Referer`, no `User-Agent`),
plus `Authorization` / `LocalName` when present. -/
def proxyHeadersV1 (req : HttpRequest) : ForwardHeaders where
  origin := some JIIT_API_BASE_V1
  referer := none
  cookie := none
  secFetchSite := none
  secFetchMode := none
  secFetchDest := none
  contentType :=
    some (if jsTruthy req.contentType then req.contentType.getD []
          else ("application/json").toList)
  userAgent := none
  authorization := if jsTruthy req.authorization then req.authorization else none
  localName := if jsTruthy req.localName then req.localName else none

/-- The forwarded headers of the archived worker `src/index.ts`: the
proxied `Request` is built from the caller's full header set, then
`Origin` is overwritten with `JIIT_API_BASE` and `Host` is deleted — all
other caller headers (`Referer`, `Cookie`, `Sec-Fetch-*`, ...) pass
through verbatim. -/
def workerForwardHeaders (req : HttpRequest) : ForwardHeaders where
  origin := some JIIT_API_BASE_V1
  referer := req.referer
  cookie := req.cookie
  secFetchSite := req.secFetchSite
  secFetchMode := req.secFetchMode
  secFetchDest := req.secFetchDest
  contentType := req.contentType
  userAgent := req.userAgent
  authorization := req.authorization
  localName := req.localName

/-! ## UTF-8 codec (Node `Buffer.prototype.toString('utf-8')` and the
UTF-8 serialisation `fetch` applies to a string body) -/

/-- Whether a byte is a UTF-8 continuation byte (`10xxxxxx`). -/
def isContByte (b : Nat) : Bool := 128 ≤ b && b ≤ 191

/-- UTF-8 decoding with U+FFFD replacement of invalid sequences, as Node
`buffer.toString('utf-8')` performs: returns the decoded code points. -/
def utf8DecodeReplace : List Nat → List Nat
  | [] => []
  | b :: rest =>
    if b ≤ 127 then b :: utf8DecodeReplace rest
    else if 194 ≤ b && b ≤ 223 then
      match _h1 : rest with
      | [] => [65533]
      | b1 :: rest1 =>
        if isContByte b1 then ((b - 192) * 64 + (b1 - 128)) :: utf8DecodeReplace rest1
        else 65533 :: utf8DecodeReplace rest
    else if 224 ≤ b && b ≤ 239 then
      match _h1 : rest with
      | [] => [65533]
      | b1 :: rest1 =>
        let lo : Nat := if b = 224 then 160 else 128
        let hi : Nat := if b = 237 then 159 else 191
        if lo ≤ b1 && b1 ≤ hi then
          match _h2 : rest1 with
          | [] => [65533]
          | b2 :: rest2 =>
            if isContByte b2 then
              ((b - 224) * 4096 + (b1 - 128) * 64 + (b2 - 128)) :: utf8DecodeReplace rest2
            else 65533 :: utf8DecodeReplace rest1
        else 65533 :: utf8DecodeReplace rest
    else if 240 ≤ b && b ≤ 244 then
      match _h1 : rest with
      | [] => [65533]
      | b1 :: rest1 =>
        let lo : Nat := if b = 240 then 144 else 128
        let hi : Nat := if b = 244 then 143 else 191
        if lo ≤ b1 && b1 ≤ hi then
          match _h2 : rest1 with
          | [] => [65533]
          | b2 :: rest2 =>
            if isContByte b2 then
              match _h3 : rest2 with
              | [] => [65533]
              | b3 :: rest3 =>
                if isContByte b3 then
                  ((b - 240) * 262144 + (b1 - 128) * 4096 + (b2 - 128) * 64 + (b3 - 128))
                    :: utf8DecodeReplace rest3
                else 65533 :: utf8DecodeReplace rest2
            else 65533 :: utf8DecodeReplace rest1
        else 65533 :: utf8DecodeReplace rest
    else 65533 :: utf8DecodeReplace rest
termination_by l => l.length
decreasing_by all_goals first
  | (simp_all [List.length_cons]; omega)
  | simp_all [List.length_cons]

/-- UTF-8 encoding of one code point. -/
def utf8EncodeChar (c : Nat) : List Nat :=
  if c ≤ 127 then [c]
  else if c ≤ 2047 then [192 + c / 64, 128 + c % 64]
  else if c ≤ 65535 then [224 + c / 4096, 128 + (c / 64) % 64, 128 + c % 64]
  else [240 + c / 262144, 128 + (c / 4096) % 64, 128 + (c / 64) % 64, 128 + c % 64]

/-- UTF-8 encoding of a sequence of code points, as `fetch` applies to a
string request body. -/
def utf8Encode (cs : List Nat) : List Nat :=
  (cs.map utf8EncodeChar).flatten

/-- Body forwarding of `server.js` variant 2: for `POST`/`PUT`/`PATCH`
with a non-empty raw buffer, the buffer is decoded with
`toString('utf-8')` and the resulting string re-serialised to bytes by
`fetch`; otherwise no body is sent.  Returns the bytes the upstream
receives. -/
def bodyForwardV2 (method : JStr) (body : List Nat) : Option (List Nat) :=
  if (method = ("POST").toList ∨ method = ("PUT").toList ∨ method = ("PATCH").toList)
      ∧ body ≠ [] then
    some (utf8Encode (utf8DecodeReplace body))
  else none

/-! ## Forwarder -/

/-- The `fetch` options the proxy passes for the single upstream call:
the method and, when explicitly configured, a redirect mode.  None of
the source variants sets `redirect`, so the field is `none` in every
model below. -/
structure FetchOptions where
  method : JStr
  redirect : Option JStr
  deriving DecidableEq, Repr

/-- The redirect mode the `fetch` call effectively runs with: the
configured mode, or the platform default `follow` when none is set. -/
def effectiveRedirectMode (opts : FetchOptions) : JStr :=
  opts.redirect.getD (("follow").toList)

/-- `fetchOptions` of `server.js` variant 1: `{ method: req.method,
headers: proxyHeaders }` — no `redirect` key. -/
def fetchOptionsV1 (req : HttpRequest) : FetchOptions where
  method := req.method
  redirect := none

/-- `fetchOptions` of `server.js` variant 2: `{ method: req.method,
headers: proxyHeaders }` plus the body — no `redirect` key. -/
def fetchOptionsV2 (req : HttpRequest) : FetchOptions where
  method := req.method
  redirect := none

/-- The `fetch(proxyRequest)` call of the archived worker
`src/index.ts`: the `Request` init carries method, headers and body but
no `redirect` member. -/
def workerFetchOptions (req : HttpRequest) : FetchOptions where
  method := req.method
  redirect := none

/-- `req.method.toUpperCase()`. -/
def upperStr (s : JStr) : JStr := s.map Char.toUpper

/-- The fetch init of the Hono worker variant (the implementation staged
after the separator in `src/README.md`): `fetch(upstreamUrl.toString(),
{ method, headers: outHeaders, body, redirect: "manual" })` with `method
= req.method.toUpperCase()` — the one variant that does configure a
redirect policy, and it is `manual`. -/
def honoFetchOptions (req : HttpRequest) : FetchOptions where
  method := upperStr req.method
  redirect := some (("manual").toList)

/-- The response of the single upstream call. -/
structure UpstreamResponse where
  status : Nat
  headers : List (JStr × JStr)
  body : JStr
  deriving DecidableEq, Repr

/-- A response the proxy sends to its caller, together with the number
of upstream forwarding attempts made while producing it. -/
structure SimpleResponse where
  status : Nat
  headers : List (JStr × JStr)
  body : JStr
  upstreamAttempts : Nat
  deriving DecidableEq, Repr

/-- Lower-case a header name, as the response-header filter does with
`key.toLowerCase()`. -/
def lowerStr (s : JStr) : JStr := s.map Char.toLower

/-- The response-header relay of the proxy: every upstream header whose
lower-cased name does not start with `access-control-` is copied. -/
def relayHeaders (hs : List (JStr × JStr)) : List (JStr × JStr) :=
  hs.filter (fun kv => !(("access-control-").toList).isPrefixOf (lowerStr kv.1))

/-- The proxy handler pipeline shared by all variants, parametrised by
the configured base, the target validator and the CORS-header function:
resolve the target path (400 on failure), build `targetUrl = base ++
targetPath`, validate it (403 on failure), then make the single upstream
call — relaying status, filtered headers and body on success and
answering 502 with the error message on a thrown/rejected fetch.  CORS
headers are applied on every branch; `upstreamAttempts` counts the fetch
calls made. -/
def proxyHandlerCore (base : JStr) (validate : JStr → Bool)
    (corsHeadersOf : Option JStr → List (JStr × JStr))
    (req : HttpRequest) (upstream : Except JStr UpstreamResponse) : SimpleResponse :=
  match resolvedTargetPath req.queryPath req.pathname with
  | none =>
    { status := 400, headers := corsHeadersOf req.origin,
      body := ("Missing target path. Use ?path=/StudentPortalAPI/... or /proxy/StudentPortalAPI/...").toList,
      upstreamAttempts := 0 }
  | some targetPath =>
    let targetUrl := base ++ targetPath
    if validate targetUrl then
      match upstream with
      | Except.ok r =>
        { status := r.status,
          headers := corsHeadersOf req.origin ++ relayHeaders r.headers,
          body := r.body, upstreamAttempts := 1 }
      | Except.error msg =>
        { status := 502, headers := corsHeadersOf req.origin,
          body := ("Proxy error: ").toList ++ msg, upstreamAttempts := 1 }
    else
      { status := 403, headers := corsHeadersOf req.origin,
        body := ("Invalid target URL. Only JIIT API endpoints are allowed.").toList,
        upstreamAttempts := 0 }

/-- The proxy handler of `server.js` variant 2 (prefix validator, base
including `/StudentPortalAPI`). -/
def proxyHandlerV2 : HttpRequest → Except JStr UpstreamResponse → SimpleResponse :=
  proxyHandlerCore JIIT_API_BASE_V2 isValidJiitUrlV2 getCorsHeaders

/-- The proxy handler of `server.js` variant 1 (exact-origin validator,
bare-origin base). -/
def proxyHandlerV1 : HttpRequest → Except JStr UpstreamResponse → SimpleResponse :=
  proxyHandlerCore JIIT_API_BASE_V1 isValidJiitUrlV1 getCorsHeaders

/-- The proxy handler of the archived worker `src/index.ts`
(exact-origin validator, worker CORS headers). -/
def workerProxyHandler : HttpRequest → Except JStr UpstreamResponse → SimpleResponse :=
  proxyHandlerCore JIIT_API_BASE_V1 isValidJiitUrlV1 workerGetCorsHeaders

/-! ## Preflight handling and routing -/

/-- The `app.options('/proxy*')` handler of `server.js`: apply the CORS
headers and end the response with status 200; the upstream is never
contacted. -/
def expressOptionsHandler (req : HttpRequest) : SimpleResponse :=
  { status := 200, headers := getCorsHeaders req.origin, body := [],
    upstreamAttempts := 0 }

/-- `handleOptions` of the archived worker `src/index.ts`: when the
request carries an `Origin` and both `Access-Control-Request-Method` and
`Access-Control-Request-Headers`, answer with the CORS header set (a
`Response` with default status 200); otherwise answer a capability probe
with an `Allow` header (also status 200). -/
def workerHandleOptions (req : HttpRequest) : SimpleResponse :=
  if jsTruthy req.origin && jsTruthy req.acrMethod && jsTruthy req.acrHeaders then
    { status := 200, headers := workerGetCorsHeaders req.origin, body := [],
      upstreamAttempts := 0 }
  else
    { status := 200, headers := [(("Allow").toList, ("GET, HEAD, POST, OPTIONS").toList)],
      body := [], upstreamAttempts := 0 }

/-- The Express route table of `server.js` variant 2, in registration
order: `GET /`, `GET /health`, `OPTIONS /proxy*`, `ALL /proxy*`, then
the 404 fallback. -/
def expressDispatch (req : HttpRequest) (upstream : Except JStr UpstreamResponse) :
    SimpleResponse :=
  if req.method = ("GET").toList ∧ req.pathname = ('/') :: [] then
    { status := 200, headers := [], body := ("service info").toList, upstreamAttempts := 0 }
  else if req.method = ("GET").toList ∧ req.pathname = ("/health").toList then
    { status := 200, headers := [], body := ("healthy").toList, upstreamAttempts := 0 }
  else if req.method = ("OPTIONS").toList ∧ (("/proxy").toList).isPrefixOf req.pathname then
    expressOptionsHandler req
  else if (("/proxy").toList).isPrefixOf req.pathname then
    proxyHandlerV2 req upstream
  else
    { status := 404, headers := [], body := ("Not Found").toList, upstreamAttempts := 0 }

/-- The fetch dispatcher of the archived worker `src/index.ts`: root
info page, then any `OPTIONS` request to `handleOptions`, then the proxy
path (GET/HEAD/POST only, 405 otherwise), then 404. -/
def workerDispatch (req : HttpRequest) (upstream : Except JStr UpstreamResponse) :
    SimpleResponse :=
  if req.pathname = ('/') :: [] ∨ req.pathname = [] then
    { status := 200, headers := [], body := ("service info").toList, upstreamAttempts := 0 }
  else if req.method = ("OPTIONS").toList then
    workerHandleOptions req
  else if (("/proxy").toList).isPrefixOf req.pathname then
    if req.method = ("GET").toList ∨ req.method = ("HEAD").toList
        ∨ req.method = ("POST").toList then
      workerProxyHandler req upstream
    else
      { status := 405, headers := [], body := [], upstreamAttempts := 0 }
  else
    { status := 404, headers := [], body := ("Not Found").toList, upstreamAttempts := 0 }


/-! ## Concrete test requests -/

/-- A minimal inbound request: `GET /proxy` with no query, headers or
body; concrete test requests below override individual fields. -/
def baseReq : HttpRequest where
  method := ("GET").toList
  queryPath := none
  pathname := ("/proxy").toList
  origin := none
  acrMethod := none
  acrHeaders := none
  contentType := none
  userAgent := none
  authorization := none
  localName := none
  referer := none
  cookie := none
  secFetchSite := none
  secFetchMode := none
  secFetchDest := none
  body := []

/-- A browser preflight request to the proxy path: `OPTIONS` with
`Origin`, `Access-Control-Request-Method` and
`Access-Control-Request-Headers` set. -/
def preflightReq : HttpRequest :=
  { baseReq with
      method := ("OPTIONS").toList,
      pathname := ("/proxy/StudentPortalAPI/x").toList,
      origin := some (("https://codeblech.github.io").toList),
      acrMethod := some (("POST").toList),
      acrHeaders := some (("content-type").toList) }

/-! ## Helper lemmas -/

theorem isPrefixOf_append_self (l t : List Char) : l.isPrefixOf (l ++ t) = true := by
  induction l with
  | nil => simp [List.isPrefixOf]
  | cons a l ih => simp [List.isPrefixOf, ih]

theorem isPrefixOf_eq_exists (p s : List Char) :
    p.isPrefixOf s = true ↔ ∃ rest, s = p ++ rest := by
  induction p generalizing s with
  | nil => simp [List.isPrefixOf]
  | cons a p ih =>
    cases s with
    | nil => simp [List.isPrefixOf]
    | cons b s' =>
      simp only [List.isPrefixOf, Bool.and_eq_true, beq_iff_eq, ih, List.cons_append,
        List.cons.injEq]
      constructor
      · rintro ⟨hab, rest, hr⟩
        exact ⟨rest, hab.symm, hr⟩
      · rintro ⟨rest, hab, hr⟩
        exact ⟨hab.symm, rest, hr⟩

theorem isValidJiitUrlV2_append (tp : JStr) :
    isValidJiitUrlV2 (JIIT_API_BASE_V2 ++ tp) = true := by
  have h := isPrefixOf_append_self JIIT_API_BASE_V2 tp
  exact h

theorem withSlash_shape (s : JStr) : ∃ s', withSlash s = '/' :: s' := by
  unfold withSlash
  split
  · next hpre =>
    cases s with
    | nil => exact absurd hpre (by decide)
    | cons c s' =>
      simp only [List.isPrefixOf, Bool.and_eq_true, beq_iff_eq] at hpre
      exact ⟨s', by rw [hpre.1]⟩
  · exact ⟨s, rfl⟩

theorem resolvedTargetPath_def (q : Option JStr) (pn : JStr) :
    resolvedTargetPath q pn =
      if jsTruthy (if jsTruthy q then q
          else if (("/proxy").toList).isPrefixOf pn then some (pn.drop 6) else q) then
        some (withSlash ((if jsTruthy q then q
          else if (("/proxy").toList).isPrefixOf pn then some (pn.drop 6) else q).getD []))
      else none := rfl

theorem ite_withSlash_shape (t : Option JStr) (tp : JStr)
    (h : (if jsTruthy t = true then some (withSlash (t.getD [])) else none) = some tp) :
    ∃ tp', tp = '/' :: tp' := by
  split at h
  · injection h with h
    obtain ⟨s', hs⟩ := withSlash_shape _
    exact ⟨s', by rw [← h]; exact hs⟩
  · exact Option.noConfusion h

theorem resolvedTargetPath_shape (q : Option JStr) (pn : JStr) (tp : JStr)
    (h : resolvedTargetPath q pn = some tp) : ∃ tp', tp = '/' :: tp' :=
  ite_withSlash_shape _ tp h


/-- Attempt counting: no branch of the handler pipeline makes more than
one upstream call. -/
theorem proxyHandlerCore_attempts_le_one (base : JStr) (validate : JStr → Bool)
    (corsHeadersOf : Option JStr → List (JStr × JStr)) (req : HttpRequest)
    (u : Except JStr UpstreamResponse) :
    (proxyHandlerCore base validate corsHeadersOf req u).upstreamAttempts ≤ 1 := by
  unfold proxyHandlerCore
  cases u with
  | ok r =>
    split
    · simp
    · dsimp only
      split <;> simp
  | error msg =>
    split
    · simp
    · dsimp only
      split <;> simp

/-- When the upstream call of the shared handler pipeline was reached and
failed, the response is a 502 with the CORS headers and the error body. -/
theorem proxyHandlerCore_error (base : JStr) (validate : JStr → Bool)
    (corsHeadersOf : Option JStr → List (JStr × JStr)) (req : HttpRequest) (msg : JStr)
    (h : (proxyHandlerCore base validate corsHeadersOf req (Except.error msg)).upstreamAttempts = 1) :
    proxyHandlerCore base validate corsHeadersOf req (Except.error msg) =
      { status := 502, headers := corsHeadersOf req.origin,
        body := ("Proxy error: ").toList ++ msg, upstreamAttempts := 1 } := by
  revert h
  unfold proxyHandlerCore
  split
  · intro h; simp at h
  · dsimp only
    split
    · intro _; rfl
    · intro h; simp at h


/-- The code's path resolution agrees with the spec's stated extraction
order on every input. -/
theorem resolvedTargetPath_eq_spec (q : Option JStr) (pn : JStr) :
    resolvedTargetPath q pn = specResolvedPath q pn := by
  rw [resolvedTargetPath_def]
  unfold specResolvedPath
  cases q with
  | none =>
    cases hp : (("/proxy").toList).isPrefixOf pn <;>
      cases hd : (pn.drop 6).isEmpty <;>
        simp [jsTruthy, hp, hd]
  | some s =>
    cases hs : s.isEmpty <;>
      cases hp : (("/proxy").toList).isPrefixOf pn <;>
        cases hd : (pn.drop 6).isEmpty <;>
          simp [jsTruthy, hs, hp, hd]

/-! ## Claim theorems -/

/-- C1: the spec requires the target validator to accept a resolved
upstream URL only when its parsed origin equals the upstream base AND its
path starts with the allowed `/StudentPortalAPI` segment, rejecting
everything else with 403 before any upstream call.  The code violates
this: for the resolved path `/../evil` the string-prefix validator of
`server.js` variant 2 returns `true` although the parsed target URL's
normalised path is `/evil`, which does not start with the allowed
segment, and the handler makes the upstream call with status relayed
instead of answering 403. -/
theorem c1_validator_accepts_dot_segment_escape :
    resolvedTargetPath (some (("/../evil").toList)) (("/proxy").toList)
      = some (("/../evil").toList)
    ∧ isValidJiitUrlV2 (JIIT_API_BASE_V2 ++ ("/../evil").toList) = true
    ∧ (parseUrl (JIIT_API_BASE_V2 ++ ("/../evil").toList)).map ParsedUrl.path
      = some (("/evil").toList)
    ∧ allowedPathSeg.isPrefixOf (("/evil").toList) = false
    ∧ (proxyHandlerV2 { baseReq with queryPath := some (("/../evil").toList) }
        (Except.ok { status := 200, headers := [], body := [] })).status = 200
    ∧ (proxyHandlerV2 { baseReq with queryPath := some (("/../evil").toList) }
        (Except.ok { status := 200, headers := [], body := [] })).upstreamAttempts = 1 := by
  decide

/-- C2: the claim says non-GET/HEAD bodies reach the upstream
byte-for-byte with no parsing, reserialisation or text-decoding.  The
code violates this: `server.js` variant 2 decodes the raw buffer with
`toString('utf-8')` (U+FFFD replacement for invalid sequences) and
`fetch` re-encodes the string, so the single body byte `0xFF` arrives
as the three bytes `EF BF BD`. -/
theorem c2_body_forward_not_byte_identical :
    bodyForwardV2 (("POST").toList) [255] = some [239, 191, 189]
    ∧ bodyForwardV2 (("POST").toList) [255] ≠ some [255] := by
  constructor
  · simp [bodyForwardV2, utf8DecodeReplace, utf8Encode, utf8EncodeChar, isContByte]
  · simp [bodyForwardV2, utf8DecodeReplace, utf8Encode, utf8EncodeChar, isContByte]

/-- C3 counterexample: the claim says the origin gate admits a present
origin iff it exactly equals an allow-list entry and that an absent
origin yields no `Access-Control-Allow-Origin` header.  Both parts fail:
`https://codeblech.github.io.evil.com` is admitted without being an
entry (prefix matching), and with an absent origin the CORS headers
still carry `Access-Control-Allow-Origin: https://yashmalik.tech`. -/
theorem c3_origin_gate_counterexample :
    isOriginAllowed (some (("https://codeblech.github.io.evil.com").toList)) = true
    ∧ (("https://codeblech.github.io.evil.com").toList) ∉ ALLOWED_ORIGINS
    ∧ ((("Access-Control-Allow-Origin").toList, ("https://yashmalik.tech").toList))
        ∈ getCorsHeaders none := by
  decide

/-- C3 amended: the gate admits a present origin iff some allow-list
entry is a string prefix of it; an absent origin is rejected by the
gate, but the response still emits `Access-Control-Allow-Origin` set to
the first allow-list entry as a fallback. -/
theorem c3_origin_gate_amended (o : JStr) :
    (isOriginAllowed (some o) = true ↔
      ∃ a ∈ ALLOWED_ORIGINS, ∃ rest, o = a ++ rest)
    ∧ isOriginAllowed none = false
    ∧ ((("Access-Control-Allow-Origin").toList, ("https://yashmalik.tech").toList))
        ∈ getCorsHeaders none := by
  refine ⟨?_, rfl, by decide⟩
  constructor
  · intro h
    simp only [isOriginAllowed] at h
    split at h
    · exact absurd h (by simp)
    · rw [List.any_eq_true] at h
      obtain ⟨a, ha, hpa⟩ := h
      exact ⟨a, ha, (isPrefixOf_eq_exists a o).mp hpa⟩
  · rintro ⟨a, ha, rest, hr⟩
    simp only [isOriginAllowed]
    split
    · next he =>
      subst hr
      cases a with
      | nil => exact absurd ha (by decide)
      | cons x xs => simp at he
    · rw [List.any_eq_true]
      exact ⟨a, ha, (isPrefixOf_eq_exists a o).mpr ⟨rest, hr⟩⟩

/-- C4 counterexample: the claim says every forwarded header set carries
`Sec-Fetch-Site: same-origin` and that caller `Cookie` / `Sec-Fetch-*`
values are never forwarded verbatim.  Neither holds: the express
variant sets no `Sec-Fetch-Site` at all, and the archived worker
`src/index.ts` forwards the caller's `Cookie` and `Sec-Fetch-Site`
values unchanged. -/
theorem c4_spoofed_headers_counterexample :
    (proxyHeadersV2 { baseReq with
        method := ("POST").toList,
        cookie := some (("session=secret").toList),
        secFetchSite := some (("cross-site").toList),
        referer := some (("https://evil.example/").toList) }).secFetchSite
      ≠ some (("same-origin").toList)
    ∧ (workerForwardHeaders { baseReq with
        method := ("POST").toList,
        cookie := some (("session=secret").toList),
        secFetchSite := some (("cross-site").toList),
        referer := some (("https://evil.example/").toList) }).cookie
      = some (("session=secret").toList)
    ∧ (workerForwardHeaders { baseReq with
        method := ("POST").toList,
        cookie := some (("session=secret").toList),
        secFetchSite := some (("cross-site").toList),
        referer := some (("https://evil.example/").toList) }).secFetchSite
      = some (("cross-site").toList) := by
  decide

/-- C4 amended: the express variant builds the forwarded headers fresh
with `Origin` equal to the upstream origin exactly and `Referer` equal
to the upstream origin plus `/`, never copying caller `Cookie` or
`Sec-Fetch-*` values — but it sets no `Sec-Fetch-*` header either;
the archived worker variant overwrites only `Origin` and passes the
caller's `Referer`, `Cookie` and `Sec-Fetch-Site` through verbatim. -/
theorem c4_spoofed_headers_amended (req : HttpRequest) :
    (proxyHeadersV2 req).origin = some (("https://webportal.jiit.ac.in:6011").toList)
    ∧ (proxyHeadersV2 req).referer = some (("https://webportal.jiit.ac.in:6011/").toList)
    ∧ (proxyHeadersV2 req).secFetchSite = none
    ∧ (proxyHeadersV2 req).secFetchMode = none
    ∧ (proxyHeadersV2 req).secFetchDest = none
    ∧ (proxyHeadersV2 req).cookie = none
    ∧ (workerForwardHeaders req).origin = some JIIT_API_BASE_V1
    ∧ (workerForwardHeaders req).referer = req.referer
    ∧ (workerForwardHeaders req).cookie = req.cookie
    ∧ (workerForwardHeaders req).secFetchSite = req.secFetchSite :=
  ⟨rfl, rfl, rfl, rfl, rfl, rfl, rfl, rfl, rfl, rfl⟩

/-- C5: the two URL shapes resolve to the identical upstream target
path: `/proxy?path=/StudentPortalAPI/token/generate` and
`/proxy/StudentPortalAPI/token/generate` both yield
`/StudentPortalAPI/token/generate`. -/
theorem c5_path_shape_equivalence :
    resolvedTargetPath (some (("/StudentPortalAPI/token/generate").toList))
        (("/proxy").toList)
      = some (("/StudentPortalAPI/token/generate").toList)
    ∧ resolvedTargetPath none (("/proxy/StudentPortalAPI/token/generate").toList)
      = some (("/StudentPortalAPI/token/generate").toList) := by
  decide

/-- C6: path resolution follows the fixed order of the spec (non-empty
`path` query parameter first, then the remainder after `/proxy`), the
resolved path always starts with `/` (prepended when missing), and when
neither method yields a path the handler answers 400 with the CORS
headers applied and zero upstream calls. -/
theorem c6_path_resolution_order (q : Option JStr) (pn : JStr) (req : HttpRequest)
    (u : Except JStr UpstreamResponse) :
    resolvedTargetPath q pn = specResolvedPath q pn
    ∧ (∀ tp, resolvedTargetPath q pn = some tp → ∃ tp', tp = '/' :: tp')
    ∧ (resolvedTargetPath req.queryPath req.pathname = none →
        proxyHandlerV2 req u =
          { status := 400, headers := getCorsHeaders req.origin,
            body := ("Missing target path. Use ?path=/StudentPortalAPI/... or /proxy/StudentPortalAPI/...").toList,
            upstreamAttempts := 0 }) := by
  refine ⟨resolvedTargetPath_eq_spec q pn,
    fun tp h => resolvedTargetPath_shape q pn tp h, fun h => ?_⟩
  unfold proxyHandlerV2 proxyHandlerCore
  rw [h]

/-- C6 witness: the resolution-order theorem evaluated at concrete
inputs, including the 400 branch for `GET /proxy` with no path. -/
theorem c6_path_resolution_order_witness :
    resolvedTargetPath (some (("/a").toList)) (("/proxy/b").toList)
      = specResolvedPath (some (("/a").toList)) (("/proxy/b").toList)
    ∧ proxyHandlerV2 baseReq (Except.ok { status := 200, headers := [], body := [] })
      = { status := 400, headers := getCorsHeaders none,
          body := ("Missing target path. Use ?path=/StudentPortalAPI/... or /proxy/StudentPortalAPI/...").toList,
          upstreamAttempts := 0 } :=
  ⟨(c6_path_resolution_order (some (("/a").toList)) (("/proxy/b").toList) baseReq
      (Except.ok { status := 200, headers := [], body := [] })).1,
   (c6_path_resolution_order (some (("/a").toList)) (("/proxy/b").toList) baseReq
      (Except.ok { status := 200, headers := [], body := [] })).2.2 (by decide)⟩

/-- C7: whenever the upstream call was made and failed, the proxy
answers 502 with the CORS headers and the error body, and the pipeline
never makes more than one upstream attempt for any request (no retry),
in both the express variant 2 and the archived worker. -/
theorem c7_upstream_failure_502_no_retry (req : HttpRequest) (msg : JStr) :
    ((proxyHandlerV2 req (Except.error msg)).upstreamAttempts = 1 →
      proxyHandlerV2 req (Except.error msg) =
        { status := 502, headers := getCorsHeaders req.origin,
          body := ("Proxy error: ").toList ++ msg, upstreamAttempts := 1 })
    ∧ ((workerProxyHandler req (Except.error msg)).upstreamAttempts = 1 →
      workerProxyHandler req (Except.error msg) =
        { status := 502, headers := workerGetCorsHeaders req.origin,
          body := ("Proxy error: ").toList ++ msg, upstreamAttempts := 1 })
    ∧ (∀ u, (proxyHandlerV2 req u).upstreamAttempts ≤ 1)
    ∧ (∀ u, (workerProxyHandler req u).upstreamAttempts ≤ 1) :=
  ⟨fun h => proxyHandlerCore_error _ _ _ _ _ h,
   fun h => proxyHandlerCore_error _ _ _ _ _ h,
   fun u => proxyHandlerCore_attempts_le_one _ _ _ _ u,
   fun u => proxyHandlerCore_attempts_le_one _ _ _ _ u⟩

/-- C7 witness: a concrete request whose upstream call fails with
`ECONNREFUSED` receives a 502 from both handler variants. -/
theorem c7_upstream_failure_502_no_retry_witness :
    (proxyHandlerV2 { baseReq with queryPath := some (("/token/generate").toList) }
        (Except.error (("ECONNREFUSED").toList))).status = 502
    ∧ (workerProxyHandler { baseReq with queryPath := some (("/token/generate").toList) }
        (Except.error (("ECONNREFUSED").toList))).status = 502 := by
  constructor
  · rw [(c7_upstream_failure_502_no_retry
      { baseReq with queryPath := some (("/token/generate").toList) }
      (("ECONNREFUSED").toList)).1 (by decide)]
  · rw [(c7_upstream_failure_502_no_retry
      { baseReq with queryPath := some (("/token/generate").toList) }
      (("ECONNREFUSED").toList)).2.1 (by decide)]

/-- C8 counterexample: the claim says a browser preflight to the proxy
path is answered with status 204; both the express OPTIONS handler
(`res.status(200).end()`) and the worker `handleOptions` (a `Response`
with default status) answer 200. -/
theorem c8_preflight_counterexample :
    (expressDispatch preflightReq (Except.ok { status := 200, headers := [], body := [] })).status = 200
    ∧ (workerDispatch preflightReq (Except.ok { status := 200, headers := [], body := [] })).status = 200
    ∧ (expressDispatch preflightReq (Except.ok { status := 200, headers := [], body := [] })).status ≠ 204
    ∧ (workerDispatch preflightReq (Except.ok { status := 200, headers := [], body := [] })).status ≠ 204 := by
  decide

/-- C8 amended: every OPTIONS request to the proxy path is answered
without any upstream call, and a preflight (with the worker variant also
requiring a present `Origin`) receives status 200 — not 204 — with the
CORS header set including `Access-Control-Max-Age`. -/
theorem c8_preflight_amended (req : HttpRequest) (u : Except JStr UpstreamResponse) :
    (req.method = ("OPTIONS").toList → (("/proxy").toList).isPrefixOf req.pathname = true →
      expressDispatch req u = expressOptionsHandler req
      ∧ (expressDispatch req u).upstreamAttempts = 0
      ∧ (expressDispatch req u).status = 200
      ∧ ((("Access-Control-Max-Age").toList, ("86400").toList))
          ∈ (expressDispatch req u).headers)
    ∧ (req.method = ("OPTIONS").toList → (workerDispatch req u).upstreamAttempts = 0)
    ∧ (req.method = ("OPTIONS").toList → (("/proxy").toList).isPrefixOf req.pathname = true →
        jsTruthy req.origin = true → jsTruthy req.acrMethod = true →
        jsTruthy req.acrHeaders = true →
        (workerDispatch req u).status = 200
        ∧ ((("Access-Control-Max-Age").toList, ("86400").toList))
            ∈ (workerDispatch req u).headers) := by
  refine ⟨fun hm hp => ?_, fun hm => ?_, fun hm hp ho ham hah => ?_⟩
  · have hg : ¬(req.method = ("GET").toList ∧ req.pathname = ('/') :: []) := by
      rintro ⟨h, -⟩; rw [hm] at h; exact absurd h (by decide)
    have hh : ¬(req.method = ("GET").toList ∧ req.pathname = ("/health").toList) := by
      rintro ⟨h, -⟩; rw [hm] at h; exact absurd h (by decide)
    have hd : expressDispatch req u = expressOptionsHandler req := by
      unfold expressDispatch
      rw [if_neg hg, if_neg hh, if_pos ⟨hm, hp⟩]
    refine ⟨hd, by rw [hd]; rfl, by rw [hd]; rfl, ?_⟩
    rw [hd]
    unfold expressOptionsHandler
    simp [getCorsHeaders]
  · by_cases hroot : (req.pathname = ('/') :: [] ∨ req.pathname = [])
    · unfold workerDispatch
      rw [if_pos hroot]
    · unfold workerDispatch
      rw [if_neg hroot, if_pos hm]
      unfold workerHandleOptions
      split <;> rfl
  · have h1 : ¬(req.pathname = ('/') :: [] ∨ req.pathname = []) := by
      rintro (h | h) <;> rw [h] at hp <;> exact absurd hp (by decide)
    unfold workerDispatch
    rw [if_neg h1, if_pos hm]
    unfold workerHandleOptions
    simp only [ho, ham, hah, Bool.and_self, if_true]
    constructor
    · simp
    · simp [workerGetCorsHeaders]

/-- C8 witness: the amended preflight theorem evaluated on a concrete
preflight request. -/
theorem c8_preflight_amended_witness :
    expressDispatch preflightReq (Except.ok { status := 200, headers := [], body := [] })
      = expressOptionsHandler preflightReq
    ∧ ((("Access-Control-Max-Age").toList, ("86400").toList))
        ∈ (workerDispatch preflightReq (Except.ok { status := 200, headers := [], body := [] })).headers :=
  ⟨((c8_preflight_amended preflightReq (Except.ok { status := 200, headers := [], body := [] })).1
      (by decide) (by decide)).1,
   ((c8_preflight_amended preflightReq (Except.ok { status := 200, headers := [], body := [] })).2.2
      (by decide) (by decide) (by decide) (by decide) (by decide)).2⟩

/-- C9 counterexample: the claim says the upstream call runs with a
manual (do-not-follow) redirect policy; no source variant configures
`redirect`, so the fetch default `follow` applies. -/
theorem c9_redirect_counterexample :
    (fetchOptionsV2 { baseReq with method := ("POST").toList }).redirect = none
    ∧ effectiveRedirectMode (fetchOptionsV2 { baseReq with method := ("POST").toList })
      = ("follow").toList
    ∧ effectiveRedirectMode (fetchOptionsV2 { baseReq with method := ("POST").toList })
      ≠ ("manual").toList := by
  decide

/-- C9 amended: the single upstream call preserves the inbound method
(upper-cased in the Hono variant); the Hono worker variant passes
`redirect: "manual"` to fetch, as the claim states, but the two express
variants and the plain worker — the cited code sites among them —
configure no redirect policy, so the fetch default `follow` applies
there and upstream redirects are resolved server-side rather than
relayed as-is. -/
theorem c9_redirect_amended (req : HttpRequest) :
    (fetchOptionsV1 req).method = req.method
    ∧ (fetchOptionsV2 req).method = req.method
    ∧ (workerFetchOptions req).method = req.method
    ∧ (honoFetchOptions req).method = upperStr req.method
    ∧ (fetchOptionsV1 req).redirect = none
    ∧ (fetchOptionsV2 req).redirect = none
    ∧ (workerFetchOptions req).redirect = none
    ∧ effectiveRedirectMode (fetchOptionsV1 req) = ("follow").toList
    ∧ effectiveRedirectMode (fetchOptionsV2 req) = ("follow").toList
    ∧ effectiveRedirectMode (workerFetchOptions req) = ("follow").toList
    ∧ (honoFetchOptions req).redirect = some (("manual").toList)
    ∧ effectiveRedirectMode (honoFetchOptions req) = ("manual").toList
    ∧ (∀ u, (proxyHandlerV2 req u).upstreamAttempts ≤ 1) :=
  ⟨rfl, rfl, rfl, rfl, rfl, rfl, rfl, rfl, rfl, rfl, rfl, rfl,
   fun u => proxyHandlerCore_attempts_le_one _ _ _ _ u⟩

/-- C10: in the string-prefix variants, every resolved target path
yields a target URL accepted by the validator (the URL is the
configured base concatenated with a `/`-leading path, so the prefix
check always succeeds), hence the 403 branch is unreachable and the
upstream call is always made. -/
theorem c10_validator_vacuous (req : HttpRequest) (tp : JStr)
    (u : Except JStr UpstreamResponse)
    (h : resolvedTargetPath req.queryPath req.pathname = some tp) :
    isValidJiitUrlV2 (JIIT_API_BASE_V2 ++ tp) = true
    ∧ isValidJiitUrlTs (JIIT_API_BASE_V2 ++ tp) JIIT_API_BASE_V2 = true
    ∧ (proxyHandlerV2 req u).upstreamAttempts = 1 := by
  refine ⟨isValidJiitUrlV2_append tp, isPrefixOf_append_self _ _, ?_⟩
  unfold proxyHandlerV2 proxyHandlerCore
  rw [h]
  dsimp only
  simp only [isValidJiitUrlV2_append tp, if_true]
  cases u <;> rfl

/-- C10 witness: the vacuous-validator theorem evaluated at a concrete
resolved path. -/
theorem c10_validator_vacuous_witness :
    isValidJiitUrlV2 (JIIT_API_BASE_V2 ++ ("/x").toList) = true
    ∧ (proxyHandlerV2 { baseReq with queryPath := some (("/x").toList) }
        (Except.ok { status := 200, headers := [], body := [] })).upstreamAttempts = 1 :=
  ⟨(c10_validator_vacuous { baseReq with queryPath := some (("/x").toList) } (("/x").toList)
      (Except.ok { status := 200, headers := [], body := [] }) (by decide)).1,
   (c10_validator_vacuous { baseReq with queryPath := some (("/x").toList) } (("/x").toList)
      (Except.ok { status := 200, headers := [], body := [] }) (by decide)).2.2⟩

end JPortalProxy
